import Mathlib

/-!
Verification of the evenframe playground data-binding catalogs.

The repository consists of two generated artifacts describing the same
entity set:

* `src/evenframe_playground/src/bindings/arktype.ts` — an arktype `scope`
  of structural type shapes together with one `default<Entity>` constant
  per entity;
* `src/evenframe_playground/src/bindings/bindings.ts` — effect `Schema`
  classes carrying per-field validation rules (non-empty, length bounds,
  numeric range, case normalization) plus the plain `*Encoded` interfaces.

This file shallowly embeds the declarations of both catalogs.  Candidate
input values are modelled by Lean structures mirroring the `*Encoded`
interfaces: optional (`T | null | undefined`) fields by `Nullish`,
string-or-object reference fields by `RefOrInline`, JS numbers by `Int`
(every number occurring in the claims is integral), JS strings by ASCII
`String`s.  The effect-Schema validation rules are embedded as executable
checkers returning the list of field-scoped error paths; the arktype
shapes as boolean checkers over the same typed inputs (on a shape-typed
input the residual runtime content of an arktype check is enum-literal
membership of the union fields).
-/

namespace Evenframe

/-- A nullish-optional slot (`T | null | undefined` in the encoded
interfaces): a present value, an explicit JSON `null`, or an absent
(`undefined`) field. -/
inductive Nullish (α : Type) where
  | present (a : α)
  | jsNull
  | jsUndefined
deriving DecidableEq, Repr

/-- A reference field (`string | Entity` union in the encoded interfaces):
either a foreign-entity identifier string or an inline nested object. -/
inductive RefOrInline (α : Type) where
  | byId (s : String)
  | inline (a : α)
deriving DecidableEq, Repr

/-- An error path: the sequence of field names from the record root to the
failing field (e.g. `["shippingAddress", "street"]`). -/
abbrev ErrPath := List String

/-- `Schema.nonEmptyString` / `Schema.minLength 1`: the string is not empty. -/
def nonEmptyS (s : String) : Bool := !(s == "")

/-- `Schema.maxLength n`: the string has at most `n` characters. -/
def maxLenS (n : Nat) (s : String) : Bool := decide (s.length ≤ n)

/-- `Schema.minLength n`: the string has at least `n` characters. -/
def minLenS (n : Nat) (s : String) : Bool := decide (n ≤ s.length)

/-- `Schema.positive`: the number is strictly positive. -/
def positiveN (x : Int) : Bool := decide (0 < x)

/-- `Schema.nonNegative`: the number is at least zero. -/
def nonNegativeN (x : Int) : Bool := decide (0 ≤ x)

/-- Membership of a string in the declared literal set of an enum union
(`Schema.Union(Schema.Literal ...)` in bindings.ts, a `'==='` literal union
in the arktype scope). -/
def checkEnum (lits : List String) (s : String) : Bool := decide (s ∈ lits)

/-- Modelled from the spec: the validation entry point (spec §6) that runs
the effect-Schema class declarations over a candidate value is not part of
`src/` (the repository fragment holds only the schema declarations), so the
error-reporting strategy follows spec §4.2/§7: each failing field of a
record contributes one field-scoped error, and errors are aggregated across
all fields rather than short-circuiting on the first failure.  Filters piped
onto one field short-circuit within that field, so a failing field yields a
single path. -/
def fieldErr (field : String) (ok : Bool) : List ErrPath :=
  if ok then [] else [[field]]

/-- Errors of a required nested record field: the nested checker's errors,
re-rooted under the field's name. -/
def nestedErr (field : String) (errs : List ErrPath) : List ErrPath :=
  errs.map (fun p => field :: p)

/-- Decode of an optional field built as
`Schema.OptionFromNullishOr(inner, null)` (possibly piped into a further
filter): `null` and absence decode to the semantic "no value"; a present
value is kept only if it passes the inner filters, and otherwise yields a
constraint violation naming the field. -/
def decodeOptField (field : String) (check : α → Bool) :
    Nullish α → Except (List ErrPath) (Option α)
  | .present a => if check a then .ok (some a) else .error [[field]]
  | .jsNull => .ok none
  | .jsUndefined => .ok none

/-- Error list of an optional scalar field, derived from `decodeOptField`. -/
def optFieldErr (field : String) (check : α → Bool) (v : Nullish α) :
    List ErrPath :=
  match decodeOptField field check v with
  | .ok _ => []
  | .error e => e

/-- Errors of an optional nested record field
(`Schema.OptionFromNullishOr(EntityClass, null)`): nothing when `null` or
absent, the nested errors re-rooted under the field otherwise. -/
def optNestedErr (field : String) (inner : α → List ErrPath) :
    Nullish α → List ErrPath
  | .present a => nestedErr field (inner a)
  | .jsNull => []
  | .jsUndefined => []

/-- Errors of a reference field
`Schema.Union(Schema.String.pipe(Schema.nonEmptyString()), EntityClass)`:
a string input must be a non-empty identifier; an object input is validated
against the referenced entity's schema with errors scoped to the nested
field path. -/
def checkRef (field : String) (inner : α → List ErrPath) :
    RefOrInline α → List ErrPath
  | .byId s => if nonEmptyS s then [] else [[field]]
  | .inline a => nestedErr field (inner a)

/-! ## Address (bindings.ts lines 3-9, arktype.ts `Address` entry) -/

/-- The `Address` value shape (`AddressEncoded`): five string fields. -/
structure AddressE where
  street : String
  city : String
  state : String
  postalCode : String
  country : String
deriving DecidableEq, Repr

/-- The effect-Schema `Address` class checks: `street` non-empty and at most
200 characters, `city` non-empty and at most 100, `state` non-empty and at
most 100, `postalCode` non-empty and at most 20, `country` non-empty and
exactly 2 characters (min 2, max 2; it is additionally uppercased by
`Schema.toUpperCase`, a transformation that cannot fail). -/
def checkAddress (a : AddressE) : List ErrPath :=
  fieldErr "street" (nonEmptyS a.street && maxLenS 200 a.street) ++
  fieldErr "city" (nonEmptyS a.city && maxLenS 100 a.city) ++
  fieldErr "state" (nonEmptyS a.state && maxLenS 100 a.state) ++
  fieldErr "postalCode" (nonEmptyS a.postalCode && maxLenS 20 a.postalCode) ++
  fieldErr "country"
    (nonEmptyS a.country && minLenS 2 a.country && maxLenS 2 a.country)

/-- The address record of spec §8's example, with an empty street. -/
def emptyStreetAddress : AddressE :=
  { street := "", city := "NYC", state := "NY", postalCode := "10001",
    country := "US" }

/-! ## Enum literal sets (bindings.ts lines 11, 170, 190, 191, 240 and the
arktype scope's literal unions, arktype.ts lines 5-9; the two files declare
identical literal sets for each of the five enums) -/

/-- The `Role` literals. -/
def roleLiterals : List String := ["Admin", "Moderator", "User", "Guest"]

/-- The `OrderStatus` literals. -/
def orderStatusLiterals : List String :=
  ["Pending", "Processing", "Shipped", "Delivered", "Cancelled"]

/-- The `PaymentStatus` literals. -/
def paymentStatusLiterals : List String :=
  ["Pending", "Processing", "Completed", "Failed", "Refunded", "Cancelled"]

/-- The `PaymentMethod` literals. -/
def paymentMethodLiterals : List String :=
  ["CreditCard", "DebitCard", "BankTransfer", "PayPal", "Crypto", "Cash"]

/-- The `ProductCategory` literals. -/
def productCategoryLiterals : List String :=
  ["Electronics", "Clothing", "Books", "Home", "Sports", "Other"]

/-! ## User (bindings.ts lines 12-21) and Customer (lines 23-33) -/

/-- The `User` value shape (`UserEncoded`). -/
structure UserE where
  id : String
  email : String
  username : String
  passwordHash : String
  roles : List String
  isActive : Bool
  createdAt : String
  updatedAt : String
deriving DecidableEq, Repr

/-- The effect-Schema `User` class checks: `id` non-empty; `email` non-empty
with length between 5 and 255; `username` non-empty with length between 3
and 50; `passwordHash` non-empty; every element of `roles` one of the `Role`
literals; `createdAt` and `updatedAt` non-empty. -/
def checkUser (u : UserE) : List ErrPath :=
  fieldErr "id" (nonEmptyS u.id) ++
  fieldErr "email"
    (nonEmptyS u.email && minLenS 5 u.email && maxLenS 255 u.email) ++
  fieldErr "username"
    (nonEmptyS u.username && minLenS 3 u.username && maxLenS 50 u.username) ++
  fieldErr "passwordHash" (nonEmptyS u.passwordHash) ++
  fieldErr "roles" (u.roles.all (checkEnum roleLiterals)) ++
  fieldErr "createdAt" (nonEmptyS u.createdAt) ++
  fieldErr "updatedAt" (nonEmptyS u.updatedAt)

/-- The inner filter of the optional `Customer.phone` field
(bindings.ts line 31): `Schema.nonEmptyString`. -/
def customerPhoneCheck (s : String) : Bool := nonEmptyS s

/-- The `Customer` value shape (`CustomerEncoded`). -/
structure CustomerE where
  id : String
  user : RefOrInline UserE
  shippingAddress : Nullish AddressE
  billingAddress : Nullish AddressE
  phone : Nullish String
  createdAt : String
deriving DecidableEq, Repr

/-- The effect-Schema `Customer` class checks: `id` non-empty; `user` a
non-empty identifier string or a valid `User`; `shippingAddress` and
`billingAddress` optional nested `Address`es; `phone` an optional non-empty
string; `createdAt` non-empty. -/
def checkCustomer (c : CustomerE) : List ErrPath :=
  fieldErr "id" (nonEmptyS c.id) ++
  checkRef "user" checkUser c.user ++
  optNestedErr "shippingAddress" checkAddress c.shippingAddress ++
  optNestedErr "billingAddress" checkAddress c.billingAddress ++
  optFieldErr "phone" customerPhoneCheck c.phone ++
  fieldErr "createdAt" (nonEmptyS c.createdAt)

/-! ## Tag (bindings.ts lines 35-41) -/

/-- The inner filter of the optional `Tag.description` field
(bindings.ts line 39): `Schema.nonEmptyString` piped into
`Schema.maxLength 500`. -/
def tagDescriptionCheck (s : String) : Bool := nonEmptyS s && maxLenS 500 s

/-- The `Tag` value shape (`TagEncoded`). -/
structure TagE where
  id : String
  name : String
  slug : String
  description : Nullish String
  postCount : Int
deriving DecidableEq, Repr

/-- The effect-Schema `Tag` class checks: `id` non-empty; `name` non-empty
and at most 100 characters; `slug` non-empty, at most 100 characters (and
lowercased by `Schema.toLowerCase`); `description` optional, non-empty and
at most 500 characters when present; `postCount` non-negative. -/
def checkTag (t : TagE) : List ErrPath :=
  fieldErr "id" (nonEmptyS t.id) ++
  fieldErr "name" (nonEmptyS t.name && maxLenS 100 t.name) ++
  fieldErr "slug" (nonEmptyS t.slug && maxLenS 100 t.slug) ++
  optFieldErr "description" tagDescriptionCheck t.description ++
  fieldErr "postCount" (nonNegativeN t.postCount)

/-! ## CartItem (bindings.ts lines 163-168) and Order (lines 171-188) -/

/-- The `CartItem` value shape (`CartItemEncoded`). -/
structure CartItemE where
  productId : String
  productName : String
  quantity : Int
  unitPrice : Int
deriving DecidableEq, Repr

/-- The effect-Schema `CartItem` class checks: `productId` non-empty;
`productName` non-empty and at most 200 characters; `quantity` and
`unitPrice` strictly positive. -/
def checkCartItem (ci : CartItemE) : List ErrPath :=
  fieldErr "productId" (nonEmptyS ci.productId) ++
  fieldErr "productName"
    (nonEmptyS ci.productName && maxLenS 200 ci.productName) ++
  fieldErr "quantity" (positiveN ci.quantity) ++
  fieldErr "unitPrice" (positiveN ci.unitPrice)

/-- The `Order` value shape (`OrderEncoded`); the `status` field arrives as
a plain string and is checked against the `OrderStatus` literals. -/
structure OrderE where
  id : String
  customer : RefOrInline CustomerE
  items : List CartItemE
  subtotal : Int
  tax : Int
  shippingCost : Int
  total : Int
  status : String
  shippingAddress : AddressE
  notes : Nullish String
  createdAt : String
  shippedAt : Nullish String
  deliveredAt : Nullish String
deriving DecidableEq, Repr

/-- The effect-Schema `Order` class checks: `id` non-empty; `customer` a
non-empty identifier or a valid `Customer`; each item a valid `CartItem`;
`subtotal`, `tax`, `shippingCost` non-negative; `total` strictly positive;
`status` one of the `OrderStatus` literals; `shippingAddress` a valid
`Address`; `notes` optional, non-empty and at most 1000 characters when
present; `createdAt` non-empty; `shippedAt`/`deliveredAt` optional
non-empty strings. -/
def checkOrder (o : OrderE) : List ErrPath :=
  fieldErr "id" (nonEmptyS o.id) ++
  checkRef "customer" checkCustomer o.customer ++
  nestedErr "items" (o.items.flatMap checkCartItem) ++
  fieldErr "subtotal" (nonNegativeN o.subtotal) ++
  fieldErr "tax" (nonNegativeN o.tax) ++
  fieldErr "shippingCost" (nonNegativeN o.shippingCost) ++
  fieldErr "total" (positiveN o.total) ++
  fieldErr "status" (checkEnum orderStatusLiterals o.status) ++
  nestedErr "shippingAddress" (checkAddress o.shippingAddress) ++
  optFieldErr "notes" (fun s => nonEmptyS s && maxLenS 1000 s) o.notes ++
  fieldErr "createdAt" (nonEmptyS o.createdAt) ++
  optFieldErr "shippedAt" nonEmptyS o.shippedAt ++
  optFieldErr "deliveredAt" nonEmptyS o.deliveredAt

/-! ## Further shapes needed by the default constants
(ValidatedAddress: bindings.ts lines 124-132; EdgeCaseUser: lines 78-85;
ComplexPayment: lines 192-214; Product: lines 241-251) -/

/-- The `ValidatedAddress` value shape (`ValidatedAddressEncoded`). -/
structure ValidatedAddressE where
  street : String
  city : String
  stateCode : String
  postalCode : String
  countryCode : String
  latitude : Nullish Int
  longitude : Nullish Int
deriving DecidableEq, Repr

/-- The `EdgeCaseUser` value shape (`EdgeCaseUserEncoded`). -/
structure EdgeCaseUserE where
  id : String
  email : String
  username : String
  createdAt : String
  loginCount : Int
  rating : Nullish Int
deriving DecidableEq, Repr

/-- The `ComplexPayment` value shape (`ComplexPaymentEncoded`); the `status`
and `method` fields arrive as plain strings and are checked against the
`PaymentStatus` / `PaymentMethod` literals. -/
structure ComplexPaymentE where
  id : String
  user : RefOrInline EdgeCaseUserE
  status : String
  method : String
  amount : Int
  currency : String
  fee : Int
  tax : Int
  total : Int
  transactionId : String
  referenceCode : Nullish String
  createdAt : String
  processedAt : Nullish String
  completedAt : Nullish String
  billingAddress : ValidatedAddressE
  notes : Nullish String
  retryCount : Int
  failureReason : Nullish String
deriving DecidableEq, Repr

/-- The `Product` value shape (`ProductEncoded`); the `category` field
arrives as a plain string and is checked against the `ProductCategory`
literals. -/
structure ProductE where
  id : String
  name : String
  description : String
  price : Int
  stockQuantity : Int
  category : String
  imageUrl : Nullish String
  isAvailable : Bool
  createdAt : String
deriving DecidableEq, Repr

/-! ## Default constants (arktype.ts lines 811-1607)

The default constants are transcribed from the arktype file.  Several enum
defaults there are corrupted literals: the source writes
`status: '"Delivered",` (arktype.ts line 837) — a stray single quote
followed by a double quote, leaving an unterminated string literal.
Following spec §7 ("a default order status containing an embedded quote
character") each such corrupted default is modelled as the string it
textually contains: a double-quote character followed by the intended
word.  Under any repair short of deleting the stray quote the value is not
a declared enum literal.  The arktype file also declares most defaults
twice (e.g. `defaultOrder` at lines 829 and 1360, with the corrupted
statuses `'"Delivered'` and `'"Shipped'`); the first occurrence of each is
transcribed here. -/

/-- `defaultCartItem` (arktype.ts lines 1602-1607): empty product id and
name, quantity 0, unit price 0. -/
def defaultCartItem : CartItemE :=
  { productId := "", productName := "", quantity := 0, unitPrice := 0 }

/-- `defaultOrder` (arktype.ts lines 829-843), with the corrupted status
literal `'"Delivered'` of line 837. -/
def defaultOrder : OrderE :=
  { id := "", customer := .byId "", items := [], subtotal := 0, tax := 0,
    shippingCost := 0, total := 0, status := "\x22Delivered",
    shippingAddress :=
      { street := "", city := "", state := "", postalCode := "",
        country := "" },
    notes := .jsNull, createdAt := "", shippedAt := .jsNull,
    deliveredAt := .jsNull }

/-- `defaultComplexPayment` (arktype.ts lines 1161-1180), with the
corrupted literals `'"Refunded'` (status) and `'"DebitCard'` (method) of
lines 1164-1165. -/
def defaultComplexPayment : ComplexPaymentE :=
  { id := "", user := .byId "", status := "\x22Refunded",
    method := "\x22DebitCard", amount := 0, currency := "", fee := 0,
    tax := 0, total := 0, transactionId := "", referenceCode := .jsNull,
    createdAt := "", processedAt := .jsNull, completedAt := .jsNull,
    billingAddress :=
      { street := "", city := "", stateCode := "", postalCode := "",
        countryCode := "", latitude := .jsNull, longitude := .jsNull },
    notes := .jsNull, retryCount := 0, failureReason := .jsNull }

/-- `defaultProduct` (arktype.ts lines 1045-1055), with the corrupted
category literal `'"Sports'` of line 1051 (the duplicate declaration at
line 1340 uses the equally corrupted `'"Electronics'`). -/
def defaultProduct : ProductE :=
  { id := "", name := "", description := "", price := 0,
    stockQuantity := 0, category := "\x22Sports", imageUrl := .jsNull,
    isAvailable := false, createdAt := "" }

/-! ## The arktype validators over shape-typed inputs

The arktype scope entries declare only primitive field types (`'string'`,
`'number'`, `'boolean'`), optional/array wrappers, references to other
scope entries, and `'==='` literal unions.  On an input already typed by
the value shapes above, the structural part of an arktype check holds by
construction, so the residual runtime content is the enum-literal
membership of literal-union fields, applied recursively through nested
records. -/

/-- The arktype `Address` entry (arktype.ts lines 444-450): every field is
a plain `'string'`, so nothing remains to check on a shape-typed input. -/
def arkCheckAddress (_ : AddressE) : Bool := true

/-- The arktype `CartItem` entry (arktype.ts lines 801-806): plain
`'string'`/`'number'` fields only. -/
def arkCheckCartItem (_ : CartItemE) : Bool := true

/-- The arktype `User` entry (arktype.ts lines 278-287): `roles` is
`['role', '[]']`, so each element must be a `Role` literal; all other
fields are plain primitives. -/
def arkCheckUser (u : UserE) : Bool :=
  u.roles.all (checkEnum roleLiterals)

/-- The arktype `Customer` entry (arktype.ts lines 20-27): `user` is
`['user', '|', 'string']` (any string, or a structurally valid user);
the optional addresses are structurally checked `address` entries. -/
def arkCheckCustomer (c : CustomerE) : Bool :=
  (match c.user with
   | .byId _ => true
   | .inline u => arkCheckUser u) &&
  (match c.shippingAddress with
   | .present a => arkCheckAddress a
   | _ => true) &&
  (match c.billingAddress with
   | .present a => arkCheckAddress a
   | _ => true)

/-- The arktype `Order` entry (arktype.ts lines 28-42): `customer` is
`['customer', '|', 'string']`, `items` is `['cartItem', '[]']`, `status`
is the `'orderStatus'` literal union, `shippingAddress` is `'address'`;
the remaining fields are plain primitives with no constraints. -/
def arkCheckOrder (o : OrderE) : Bool :=
  (match o.customer with
   | .byId _ => true
   | .inline c => arkCheckCustomer c) &&
  o.items.all arkCheckCartItem &&
  checkEnum orderStatusLiterals o.status &&
  arkCheckAddress o.shippingAddress

/-- An `Order` input rejected by the effect-Schema catalog but accepted by
the arktype catalog: every field is structurally well-typed and the status
is a declared literal, but `total` is `-5`, violating `Schema.positive`
(bindings.ts line 181) — a constraint the arktype `Order` entry
(arktype.ts line 35: `total: 'number'`) does not express. -/
def negativeTotalOrder : OrderE :=
  { id := "o1", customer := .byId "c1", items := [], subtotal := 0,
    tax := 0, shippingCost := 0, total := -5, status := "Pending",
    shippingAddress :=
      { street := "1 Main", city := "NYC", state := "NY",
        postalCode := "10001", country := "US" },
    notes := .jsNull, createdAt := "2024-01-01", shippedAt := .jsNull,
    deliveredAt := .jsNull }

/-! ## Case normalization (effect `Schema.toUpperCase` / `Schema.toLowerCase`)

`Schema.toUpperCase` and `Schema.toLowerCase` transform the decoded string
with JavaScript's `String.prototype.toUpperCase` / `toLowerCase`, modelled
here on the ASCII fragment: the basic latin letters are mapped to the
other case, every other character is left unchanged. -/

/-- ASCII model of the JS per-character upper-casing. -/
def jsUpperChar (c : Char) : Char :=
  if 97 ≤ c.toNat ∧ c.toNat ≤ 122 then Char.ofNat (c.toNat - 32) else c

/-- ASCII model of the JS per-character lower-casing. -/
def jsLowerChar (c : Char) : Char :=
  if 65 ≤ c.toNat ∧ c.toNat ≤ 90 then Char.ofNat (c.toNat + 32) else c

/-- ASCII model of JS `String.prototype.toUpperCase`. -/
def jsToUpper (s : String) : String := String.mk (s.data.map jsUpperChar)

/-- ASCII model of JS `String.prototype.toLowerCase`. -/
def jsToLower (s : String) : String := String.mk (s.data.map jsLowerChar)

/-- The decode normalization of `Address.country` (bindings.ts line 8:
`Schema.toUpperCase`). -/
def normalizeCountry : String → String := jsToUpper

/-- The decode normalization of `ValidatedAddress.stateCode`
(bindings.ts line 127: `Schema.toUpperCase`). -/
def normalizeStateCode : String → String := jsToUpper

/-- The decode normalization of `ValidatedAddress.countryCode`
(bindings.ts line 129: `Schema.toUpperCase`). -/
def normalizeCountryCode : String → String := jsToUpper

/-- The decode normalization of `ComplexPayment.currency`
(bindings.ts line 201: `Schema.toUpperCase`). -/
def normalizeCurrency : String → String := jsToUpper

/-- The decode normalization of `Tag.slug` (bindings.ts line 38:
`Schema.toLowerCase`). -/
def normalizeTagSlug : String → String := jsToLower

/-- The decode normalization of `Post.slug` (bindings.ts line 59:
`Schema.toLowerCase`). -/
def normalizePostSlug : String → String := jsToLower

/-! ## The two catalogs as (entity name, field set) tables

`arktypeScopeRecords` lists the record shapes of the arktype `scope`
(arktype.ts lines 3-808; the five enum aliases `Role`, `PaymentMethod`,
`ProductCategory`, `OrderStatus`, `PaymentStatus` of lines 5-9 are literal
unions, not record shapes).  The scope object declares most entries twice
with identical field sets (JS object-literal semantics keep the later
entry); each shape is listed once, at its first occurrence, with both
source lines noted.  `effectSchemaClasses` lists the `Schema.Class`
declarations of bindings.ts with their field sets. -/

/-- The record shapes declared in the arktype scope, with their fields. -/
def arktypeScopeRecords : List (String × List String) := [
  -- lines 10, 519
  ("MaxValidatorStacking", ["id", "megaValidatedString",
    "optionalMegaValidated", "megaValidatedNumber", "megaValidatedU32",
    "optionalMegaU32", "megaValidatedI64", "optionalMegaI64"]),
  -- lines 20, 511
  ("Customer", ["id", "user", "shippingAddress", "billingAddress", "phone",
    "createdAt"]),
  -- lines 28, 559
  ("Order", ["id", "customer", "items", "subtotal", "tax", "shippingCost",
    "total", "status", "shippingAddress", "notes", "createdAt", "shippedAt",
    "deliveredAt"]),
  -- lines 43, 745
  ("ArrayValidationExtremes", ["id", "tags", "validatedEmails",
    "optionalTags", "scores", "optionalScores", "measurements", "addresses",
    "backupAddresses"]),
  -- lines 54, 658
  ("DateTimeExtremes", ["id", "createdAt", "optionalUpdatedAt", "birthDate",
    "optionalExpiryDate", "startTime", "optionalEndTime", "appointment",
    "optionalFollowup", "duration", "optionalDuration", "timezone",
    "optionalTimezone", "deadline", "optionalTargetDate"]),
  -- lines 71, 82
  ("NetworkTypes", ["id", "ipAddress", "optionalIp", "macAddress",
    "optionalMac", "internalApiUrl", "optionalStorageUrl", "userAgent",
    "optionalUserAgent"]),
  -- lines 93, 387
  ("Session", ["id", "user", "token", "expiresAt", "createdAt"]),
  -- lines 100, 710
  ("ComplexStringValidation", ["id", "optionalUuid", "optionalIp",
    "optionalIpv4", "optionalDigits", "optionalHex", "optionalAlpha",
    "optionalAlphanumeric", "optionalDomain", "optionalWithAt"]),
  -- lines 112, 380
  ("FloatValidation", ["id", "positiveFloat", "nonNegativeFloat",
    "normalized", "optionalPositiveFloat"]),
  -- lines 119, 605
  ("NonEmptyOptionString", ["id", "optionalNonEmpty", "optionalMinThree"]),
  -- lines 124, 161
  ("ComplexIdentifiers", ["id", "uuidField", "optionalUuid", "hexId32",
    "optionalHexId", "base64Token", "optionalBase64Token", "version",
    "optionalVersion", "sha256Hash", "optionalHash"]),
  -- lines 137, 496
  ("Post", ["id", "title", "slug", "content", "excerpt", "author", "tags",
    "featuredImage", "published", "publishedAt", "viewCount", "createdAt",
    "updatedAt"]),
  -- lines 152, 736
  ("KitchenSinkString", ["id", "strictUsername", "optionalStrictUsername",
    "validatedEmail", "optionalValidatedEmail", "apiEndpoint",
    "optionalCdnUrl"]),
  -- lines 174, 782
  ("MultipleNumberValidators", ["id", "boundedPositive", "optionalByte",
    "percentage"]),
  -- lines 180, 480
  ("BusinessExtremes", ["id", "companyName", "jobTitle",
    "optionalParentCompany", "productName", "sku", "optionalVariantName",
    "optionalVariantSku", "price", "optionalDiscount", "quantity",
    "optionalMinQuantity", "testCardNumber", "optionalBackupCard"]),
  -- lines 196, 330
  ("DeepNestedValidation", ["id", "name", "primaryAddress",
    "billingAddress", "shippingAddresses", "primaryContact",
    "secondaryContact", "additionalContacts", "totalOrders", "totalSpent",
    "creditLimit"]),
  -- lines 209, 230
  ("EdgeCasePost", ["id", "author", "title", "content", "slug", "createdAt",
    "updatedAt", "viewCount", "likeCount", "isPublished", "featuredImage",
    "metaDescription"]),
  -- lines 223, 343
  ("OptionalIntegerValidation", ["id", "optionalPositiveU32",
    "optionalNonNegativeI32", "optionalPositiveU64", "optionalNegativeI64"]),
  -- lines 244, 539
  ("Product", ["id", "name", "description", "price", "stockQuantity",
    "category", "imageUrl", "isAvailable", "createdAt"]),
  -- lines 255, 394
  ("ExtremeIntegerValidation", ["id", "constrainedU8",
    "optionalConstrainedU8", "boundedU16", "optionalBoundedU16",
    "percentageU32", "optionalPercentageU32", "largeU64", "optionalLargeU64",
    "negativeI8", "optionalNegativeI8", "nonPositiveI16",
    "optionalNonPositiveI16", "boundedI32", "optionalBoundedI32",
    "constrainedI64", "optionalNonNegativeI64", "boundedUsize",
    "optionalBoundedUsize", "boundedIsize", "optionalPositiveIsize"]),
  -- lines 278, 529
  ("User", ["id", "email", "username", "passwordHash", "roles", "isActive",
    "createdAt", "updatedAt"]),
  -- lines 288, 574
  ("Tag", ["id", "name", "slug", "description", "postCount"]),
  -- lines 295, 728
  ("EdgeCaseUser", ["id", "email", "username", "createdAt", "loginCount",
    "rating"]),
  -- line 303
  ("ValidatedAddress", ["street", "city", "stateCode", "postalCode",
    "countryCode", "latitude", "longitude"]),
  -- lines 312, 675
  ("PersonalInfoExtremes", ["id", "firstName", "lastName", "fullName",
    "optionalNickname", "phone", "optionalMobile", "email",
    "optionalWorkEmail", "street", "city", "state", "postalCode", "country",
    "optionalStreet", "optionalCity"]),
  -- lines 350, 581
  ("Comment", ["id", "post", "author", "content", "parentCommentId",
    "isApproved", "createdAt", "editedAt"]),
  -- lines 360, 625
  ("ComplexPayment", ["id", "user", "status", "method", "amount",
    "currency", "fee", "tax", "total", "transactionId", "referenceCode",
    "createdAt", "processedAt", "completedAt", "billingAddress", "notes",
    "retryCount", "failureReason"]),
  -- lines 417, 591
  ("CaseValidation", ["id", "optionalLowercase", "optionalUppercase",
    "optionalCapitalized", "optionalUncapitalized", "optionalTrimmed"]),
  -- lines 425, 756
  ("IntegerBounds", ["id", "percentage", "aboveZero", "underThousand",
    "optionalByteValue", "optionalBounded"]),
  -- lines 433, 610
  ("MultiValidatorOptionalString", ["id", "username", "email", "website"]),
  -- line 439
  ("InnerValidated", ["name", "count", "optionalEmail"]),
  -- line 444
  ("Address", ["street", "city", "state", "postalCode", "country"]),
  -- lines 451, 770
  ("EdgeCaseComment", ["id", "post", "author", "content", "createdAt",
    "editedAt", "likeCount", "parentCommentId", "isApproved", "authorIp"]),
  -- lines 463, 693
  ("ExtremeFloatValidation", ["id", "multiConstrainedF32", "optionalF32",
    "normalizedF64", "optionalNormalizedF64", "negativeF64",
    "optionalNegativeF64", "currencyAmount", "optionalCurrency",
    "percentage", "optionalPercentage", "latitude", "longitude",
    "optionalLatitude", "optionalLongitude"]),
  -- lines 550, 616
  ("Author", ["id", "user", "bio", "avatarUrl", "twitterHandle",
    "githubHandle", "createdAt"]),
  -- line 599
  ("ValidatedContact", ["name", "email", "phone", "title"]),
  -- lines 645, 788
  ("AllIntegerTypes", ["id", "positiveU8", "positiveU16", "positiveU32",
    "positiveU64", "nonNegativeUsize", "positiveI8", "positiveI16",
    "positiveI32", "positiveI64", "nonNegativeIsize"]),
  -- lines 722, 764
  ("OuterWithNestedValidator", ["id", "inner", "optionalInner",
    "innerList"]),
  -- line 801
  ("CartItem", ["productId", "productName", "quantity", "unitPrice"])]

/-- The `Schema.Class` declarations of bindings.ts, with their fields. -/
def effectSchemaClasses : List (String × List String) := [
  -- line 3
  ("Address", ["street", "city", "state", "postalCode", "country"]),
  -- line 12
  ("User", ["id", "email", "username", "passwordHash", "roles", "isActive",
    "createdAt", "updatedAt"]),
  -- line 23
  ("Customer", ["id", "user", "shippingAddress", "billingAddress", "phone",
    "createdAt"]),
  -- line 35
  ("Tag", ["id", "name", "slug", "description", "postCount"]),
  -- line 43
  ("Author", ["id", "user", "bio", "avatarUrl", "twitterHandle",
    "githubHandle", "createdAt"]),
  -- line 56
  ("Post", ["id", "title", "slug", "content", "excerpt", "author", "tags",
    "featuredImage", "published", "publishedAt", "viewCount", "createdAt",
    "updatedAt"]),
  -- line 78
  ("EdgeCaseUser", ["id", "email", "username", "createdAt", "loginCount",
    "rating"]),
  -- line 87
  ("EdgeCasePost", ["id", "author", "title", "content", "slug", "createdAt",
    "updatedAt", "viewCount", "likeCount", "isPublished", "featuredImage",
    "metaDescription"]),
  -- line 105
  ("EdgeCaseComment", ["id", "post", "author", "content", "createdAt",
    "editedAt", "likeCount", "parentCommentId", "isApproved", "authorIp"]),
  -- line 124
  ("ValidatedAddress", ["street", "city", "stateCode", "postalCode",
    "countryCode", "latitude", "longitude"]),
  -- line 134
  ("ArrayValidationExtremes", ["id", "tags", "validatedEmails",
    "optionalTags", "scores", "optionalScores", "measurements", "addresses",
    "backupAddresses"]),
  -- line 146
  ("Comment", ["id", "post", "author", "content", "parentCommentId",
    "isApproved", "createdAt", "editedAt"]),
  -- line 163
  ("CartItem", ["productId", "productName", "quantity", "unitPrice"]),
  -- line 171
  ("Order", ["id", "customer", "items", "subtotal", "tax", "shippingCost",
    "total", "status", "shippingAddress", "notes", "createdAt", "shippedAt",
    "deliveredAt"]),
  -- line 192
  ("ComplexPayment", ["id", "user", "status", "method", "amount",
    "currency", "fee", "tax", "total", "transactionId", "referenceCode",
    "createdAt", "processedAt", "completedAt", "billingAddress", "notes",
    "retryCount", "failureReason"]),
  -- line 216
  ("Session", ["id", "user", "token", "expiresAt", "createdAt"]),
  -- line 227
  ("InnerValidated", ["name", "count", "optionalEmail"]),
  -- line 233
  ("OuterWithNestedValidator", ["id", "inner", "optionalInner",
    "innerList"]),
  -- line 241
  ("Product", ["id", "name", "description", "price", "stockQuantity",
    "category", "imageUrl", "isAvailable", "createdAt"]),
  -- line 253
  ("ValidatedContact", ["name", "email", "phone", "title"]),
  -- line 260
  ("DeepNestedValidation", ["id", "name", "primaryAddress",
    "billingAddress", "shippingAddresses", "primaryContact",
    "secondaryContact", "additionalContacts", "totalOrders", "totalSpent",
    "creditLimit"])]

/-- Two field lists carry the same field set. -/
def sameFieldSet (xs ys : List String) : Bool :=
  xs.all (fun f => ys.contains f) && ys.all (fun f => xs.contains f)

/-- A catalog has an entry of the given name with the given field set. -/
def hasMatchingEntry (catalog : List (String × List String))
    (name : String) (fields : List String) : Bool :=
  catalog.any (fun e => e.1 == name && sameFieldSet e.2 fields)

/-- The entity names of the arktype scope's record shapes. -/
def arktypeRecordNames : List String := arktypeScopeRecords.map (·.1)

/-- The entity names of the effect-Schema classes. -/
def effectClassNames : List String := effectSchemaClasses.map (·.1)

/-- A fully valid `User` object, usable inline in a reference field. -/
def sampleUser : UserE :=
  { id := "u1", email := "ann@example.com", username := "ann",
    passwordHash := "hash", roles := ["Admin"], isActive := true,
    createdAt := "2024-01-01", updatedAt := "2024-01-02" }

/-- A malformed `User` object: its `email` is empty. -/
def malformedUser : UserE := { sampleUser with email := "" }

/-- The arktype record shapes that have no effect-Schema class. -/
def arktypeOnlyNames : List String :=
  ["MaxValidatorStacking", "DateTimeExtremes", "NetworkTypes",
   "ComplexStringValidation", "FloatValidation", "NonEmptyOptionString",
   "ComplexIdentifiers", "KitchenSinkString", "MultipleNumberValidators",
   "BusinessExtremes", "OptionalIntegerValidation",
   "ExtremeIntegerValidation", "PersonalInfoExtremes", "CaseValidation",
   "IntegerBounds", "MultiValidatorOptionalString",
   "ExtremeFloatValidation", "AllIntegerTypes"]

end Evenframe

namespace Evenframe

/-- C4: validating `{street:"", city:"NYC", state:"NY", postalCode:"10001",
country:"US"}` against the Address schema fails with exactly one
constraint-violation error, scoped to the `street` field; replacing the
street by any non-empty string of at most 200 characters makes the record
validate successfully. -/
theorem address_empty_street_fails_nonempty_succeeds :
    checkAddress emptyStreetAddress = [["street"]] ∧
    ∀ s : String, s ≠ "" → s.length ≤ 200 →
      checkAddress { emptyStreetAddress with street := s } = [] := by
  constructor
  · decide
  · intro s hne hlen
    have h1 : nonEmptyS s = true := by
      simp [nonEmptyS, hne]
    have h2 : maxLenS 200 s = true := by
      simp [maxLenS, hlen]
    simp [checkAddress, emptyStreetAddress, fieldErr, h1, h2]
    decide

/-- Witness for C4: the concrete street `"123 Main St"` is non-empty, has at
most 200 characters, and the corrected record validates. -/
theorem address_empty_street_fails_nonempty_succeeds_witness :
    checkAddress { emptyStreetAddress with street := "123 Main St" } = [] :=
  address_empty_street_fails_nonempty_succeeds.2 "123 Main St"
    (by decide) (by decide)

/-- C1, counterexample: the claim "D(E) validates against E's validated
schema" is false at `defaultCartItem` — validating it against the
effect-Schema `CartItem` class produces errors. -/
theorem default_cart_item_fails_cart_item_schema :
    checkCartItem defaultCartItem ≠ [] := by decide

/-- C1, amended: `defaultCartItem` does not validate against the `CartItem`
schema — every one of its four fields violates its constraint (empty
`productId`/`productName`, non-positive `quantity`/`unitPrice`) — and
`defaultOrder` does not validate against the `Order` schema (empty `id`,
empty `customer` identifier, non-positive `total`, corrupted `status`
literal, all-empty `shippingAddress`, empty `createdAt`). -/
theorem default_instances_fail_validated_schemas :
    checkCartItem defaultCartItem =
      [["productId"], ["productName"], ["quantity"], ["unitPrice"]] ∧
    checkOrder defaultOrder =
      [["id"], ["customer"], ["total"], ["status"],
       ["shippingAddress", "street"], ["shippingAddress", "city"],
       ["shippingAddress", "state"], ["shippingAddress", "postalCode"],
       ["shippingAddress", "country"], ["createdAt"]] := by decide

/-- C2, counterexample: the claim "every entity name declared in the
arktype scope has a class of the same name in the effect-Schema catalog"
is false at `MaxValidatorStacking`, an arktype record shape with no
effect-Schema class. -/
theorem arktype_scope_has_entity_without_effect_class :
    arktypeRecordNames.contains "MaxValidatorStacking" = true ∧
    effectClassNames.contains "MaxValidatorStacking" = false := by decide

/-- C2, amended: every effect-Schema class has an arktype scope entry of
the same name with the same field set, but not conversely — the arktype
scope declares exactly 18 additional record shapes (the
`arktypeOnlyNames`) that have no effect-Schema class. -/
theorem effect_classes_match_arktype_entries_but_not_conversely :
    effectSchemaClasses.all
      (fun e => hasMatchingEntry arktypeScopeRecords e.1 e.2) = true ∧
    arktypeScopeRecords.all
      (fun e => effectClassNames.contains e.1 ||
        arktypeOnlyNames.contains e.1) = true ∧
    arktypeOnlyNames.all
      (fun n => arktypeRecordNames.contains n &&
        !(effectClassNames.contains n)) = true := by decide

/-- C3: none of the enum-typed default values is a declared literal of its
enum — `defaultOrder.status`, `defaultComplexPayment.status`,
`defaultComplexPayment.method` and `defaultProduct.category` are all
corrupted strings carrying an embedded quote character (spec §7/§9 flag
these as code-generation defects). -/
theorem corrupted_enum_defaults_not_declared_literals :
    checkEnum orderStatusLiterals defaultOrder.status = false ∧
    checkEnum paymentStatusLiterals defaultComplexPayment.status = false ∧
    checkEnum paymentMethodLiterals defaultComplexPayment.method = false ∧
    checkEnum productCategoryLiterals defaultProduct.category = false := by
  decide

/-- C5: a reference field (the `Schema.Union(nonEmptyString, Entity)`
combinator instantiated at `Customer.user`, `Order.customer`,
`Comment.post`, `Comment.author`, ...) accepts any non-empty identifier
string; accepts any nested object the referenced entity's checker passes;
rejects a malformed nested object with exactly the nested errors re-rooted
under the field (hence scoped to the nested field path); and rejects the
empty string identifier with an error on the field. -/
theorem reference_fields_accept_id_or_valid_object_reject_malformed
    {α : Type} (inner : α → List ErrPath) (field : String) (s : String)
    (a : α) :
    (s ≠ "" → checkRef field inner (.byId s) = []) ∧
    (inner a = [] → checkRef field inner (.inline a) = []) ∧
    (inner a ≠ [] →
      checkRef field inner (.inline a) =
        (inner a).map (fun p => field :: p) ∧
      checkRef field inner (.inline a) ≠ []) ∧
    checkRef field inner (.byId "") = [[field]] := by
  refine ⟨fun hs => ?_, fun ha => ?_, fun ha => ⟨?_, ?_⟩, ?_⟩
  · simp [checkRef, nonEmptyS, hs]
  · simp [checkRef, nestedErr, ha]
  · simp [checkRef, nestedErr]
  · simp [checkRef, nestedErr, ha]
  · simp [checkRef, nonEmptyS]

/-- Witness for C5, at the `Customer.user` field: the identifier `"u1"` is
accepted, the valid inline `sampleUser` is accepted, the malformed
`malformedUser` (empty email) is rejected, and the empty identifier is
rejected. -/
theorem reference_fields_witness :
    checkRef "user" checkUser (.byId "u1") = [] ∧
    checkRef "user" checkUser (.inline sampleUser) = [] ∧
    checkRef "user" checkUser (.inline malformedUser) ≠ [] ∧
    checkRef "user" checkUser (.byId "") = [["user"]] :=
  ⟨(reference_fields_accept_id_or_valid_object_reject_malformed
      checkUser "user" "u1" sampleUser).1 (by decide),
   (reference_fields_accept_id_or_valid_object_reject_malformed
      checkUser "user" "u1" sampleUser).2.1 (by decide),
   ((reference_fields_accept_id_or_valid_object_reject_malformed
      checkUser "user" "u1" malformedUser).2.2.1 (by decide)).2,
   (reference_fields_accept_id_or_valid_object_reject_malformed
      checkUser "user" "u1" sampleUser).2.2.2⟩

/-- C6: for the optional fields `Customer.phone` and `Tag.description`,
supplying `null`, omitting the field, and supplying a valid inner value are
all accepted (`null` and absence decoding to the semantic "no value"),
while a present value violating the inner constraint is rejected with a
constraint violation naming the field. -/
theorem optional_nullish_fields_decode (s : String) :
    (decodeOptField "phone" customerPhoneCheck .jsNull = .ok none ∧
     decodeOptField "phone" customerPhoneCheck .jsUndefined = .ok none ∧
     (customerPhoneCheck s = true →
       decodeOptField "phone" customerPhoneCheck (.present s) =
         .ok (some s)) ∧
     (customerPhoneCheck s = false →
       decodeOptField "phone" customerPhoneCheck (.present s) =
         .error [["phone"]])) ∧
    (decodeOptField "description" tagDescriptionCheck .jsNull = .ok none ∧
     decodeOptField "description" tagDescriptionCheck .jsUndefined =
       .ok none ∧
     (tagDescriptionCheck s = true →
       decodeOptField "description" tagDescriptionCheck (.present s) =
         .ok (some s)) ∧
     (tagDescriptionCheck s = false →
       decodeOptField "description" tagDescriptionCheck (.present s) =
         .error [["description"]])) := by
  refine ⟨⟨rfl, rfl, fun h => ?_, fun h => ?_⟩,
          ⟨rfl, rfl, fun h => ?_, fun h => ?_⟩⟩ <;>
    simp [decodeOptField, h]

/-- Witness for C6, at `Customer.phone`: the non-empty value
`"555-0100"` is accepted, the empty string (correct wrapper type, violated
inner constraint) is rejected naming the field. -/
theorem optional_nullish_fields_decode_witness :
    decodeOptField "phone" customerPhoneCheck (.present "555-0100") =
      .ok (some "555-0100") ∧
    decodeOptField "phone" customerPhoneCheck (.present "") =
      .error [["phone"]] :=
  ⟨(optional_nullish_fields_decode "555-0100").1.2.2.1 (by decide),
   (optional_nullish_fields_decode "").1.2.2.2 (by decide)⟩

/-- C7: each of the five enum checks accepts exactly its declared string
literals — every other input string is rejected. -/
theorem enum_fields_accept_exactly_declared_literals (s : String) :
    (checkEnum roleLiterals s = true ↔
      s = "Admin" ∨ s = "Moderator" ∨ s = "User" ∨ s = "Guest") ∧
    (checkEnum orderStatusLiterals s = true ↔
      s = "Pending" ∨ s = "Processing" ∨ s = "Shipped" ∨
      s = "Delivered" ∨ s = "Cancelled") ∧
    (checkEnum paymentStatusLiterals s = true ↔
      s = "Pending" ∨ s = "Processing" ∨ s = "Completed" ∨ s = "Failed" ∨
      s = "Refunded" ∨ s = "Cancelled") ∧
    (checkEnum paymentMethodLiterals s = true ↔
      s = "CreditCard" ∨ s = "DebitCard" ∨ s = "BankTransfer" ∨
      s = "PayPal" ∨ s = "Crypto" ∨ s = "Cash") ∧
    (checkEnum productCategoryLiterals s = true ↔
      s = "Electronics" ∨ s = "Clothing" ∨ s = "Books" ∨ s = "Home" ∨
      s = "Sports" ∨ s = "Other") := by
  simp [checkEnum, roleLiterals, orderStatusLiterals, paymentStatusLiterals,
    paymentMethodLiterals, productCategoryLiterals]

/-- C8: a record with several invalid fields is reported with a
field-scoped error for every failing field in one result — an `Address`
with both `street` and `city` empty yields errors on both, not only on the
first. -/
theorem address_multiple_invalid_fields_all_reported (a : AddressE)
    (hs : a.street = "") (hc : a.city = "") :
    ["street"] ∈ checkAddress a ∧ ["city"] ∈ checkAddress a := by
  constructor <;> simp [checkAddress, fieldErr, hs, hc, nonEmptyS]

/-- Witness for C8: the concrete address with empty street and city (state
`"NY"`, postal code `"10001"`, country `"US"`) reports both fields. -/
theorem address_multiple_invalid_fields_all_reported_witness :
    ["street"] ∈ checkAddress
      { street := "", city := "", state := "NY", postalCode := "10001",
        country := "US" } ∧
    ["city"] ∈ checkAddress
      { street := "", city := "", state := "NY", postalCode := "10001",
        country := "US" } :=
  address_multiple_invalid_fields_all_reported _ rfl rfl

/-- Upper-casing a character twice equals upper-casing it once: the result
of the first pass is never a lower-case basic latin letter. -/
theorem jsUpperChar_idem (c : Char) :
    jsUpperChar (jsUpperChar c) = jsUpperChar c := by
  unfold jsUpperChar
  by_cases h : 97 ≤ c.toNat ∧ c.toNat ≤ 122
  · have hv : Nat.isValidChar (c.toNat - 32) := Or.inl (by omega)
    have ht : (Char.ofNat (c.toNat - 32)).toNat = c.toNat - 32 := by
      simp only [Char.ofNat, hv, dif_pos]
      rfl
    rw [if_pos h, if_neg]
    rw [ht]
    omega
  · rw [if_neg h, if_neg h]

/-- Lower-casing a character twice equals lower-casing it once. -/
theorem jsLowerChar_idem (c : Char) :
    jsLowerChar (jsLowerChar c) = jsLowerChar c := by
  unfold jsLowerChar
  by_cases h : 65 ≤ c.toNat ∧ c.toNat ≤ 90
  · have hv : Nat.isValidChar (c.toNat + 32) := Or.inl (by omega)
    have ht : (Char.ofNat (c.toNat + 32)).toNat = c.toNat + 32 := by
      simp only [Char.ofNat, hv, dif_pos]
      rfl
    rw [if_pos h, if_neg]
    rw [ht]
    omega
  · rw [if_neg h, if_neg h]

/-- `jsToUpper` is idempotent. -/
theorem jsToUpper_idem (s : String) : jsToUpper (jsToUpper s) = jsToUpper s := by
  unfold jsToUpper
  have hf : jsUpperChar ∘ jsUpperChar = jsUpperChar := funext jsUpperChar_idem
  show String.mk ((s.data.map jsUpperChar).map jsUpperChar) =
    String.mk (s.data.map jsUpperChar)
  rw [List.map_map, hf]

/-- `jsToLower` is idempotent. -/
theorem jsToLower_idem (s : String) : jsToLower (jsToLower s) = jsToLower s := by
  unfold jsToLower
  have hf : jsLowerChar ∘ jsLowerChar = jsLowerChar := funext jsLowerChar_idem
  show String.mk ((s.data.map jsLowerChar).map jsLowerChar) =
    String.mk (s.data.map jsLowerChar)
  rw [List.map_map, hf]

/-- C9: the case normalization of every field declared with one
(`Address.country`, `ValidatedAddress.stateCode`,
`ValidatedAddress.countryCode`, `ComplexPayment.currency` to upper case;
`Tag.slug`, `Post.slug` to lower case) is idempotent: normalizing an
already-normalized output yields the same value. -/
theorem case_normalization_idempotent (s : String) :
    normalizeCountry (normalizeCountry s) = normalizeCountry s ∧
    normalizeStateCode (normalizeStateCode s) = normalizeStateCode s ∧
    normalizeCountryCode (normalizeCountryCode s) = normalizeCountryCode s ∧
    normalizeCurrency (normalizeCurrency s) = normalizeCurrency s ∧
    normalizeTagSlug (normalizeTagSlug s) = normalizeTagSlug s ∧
    normalizePostSlug (normalizePostSlug s) = normalizePostSlug s :=
  ⟨jsToUpper_idem s, jsToUpper_idem s, jsToUpper_idem s, jsToUpper_idem s,
   jsToLower_idem s, jsToLower_idem s⟩

/-- C10: the two catalogs are not behaviorally equivalent as validators —
`negativeTotalOrder` (an `Order` whose `total` is `-5`) passes the arktype
`Order` check, which expresses only primitive shape, while the
effect-Schema `Order` class rejects it with a constraint violation on
`total`. -/
theorem arktype_accepts_order_effect_rejects :
    arkCheckOrder negativeTotalOrder = true ∧
    checkOrder negativeTotalOrder = [["total"]] := by decide

end Evenframe
